import Mathlib

/-!
Verification development for the colorcat repository (src/colorcat.py and
src/colorcat-config-wip.py): a shallow embedding of the theme-configuration
subsystem (validator, theme registry, modifier, offset engine) and of the
CLI input phase, with theorems settling the specification's testable
properties against the embedded code.

Python values read from YAML documents are modelled by the inductive type
`Value`; Python dicts become association lists that preserve insertion
order (a Python dict has no duplicate keys, and all operations below look
up the first occurrence, so an association list is a faithful model).
-/

set_option maxHeartbeats 1000000

namespace Colorcat

/-- A YAML/Python value as handled by `yaml.safe_load`: `None`, `str`,
`bool`, `int`, lists and dicts (string keys, insertion ordered). -/
inductive Value where
  | null : Value
  | vstr (s : String) : Value
  | vbool (b : Bool) : Value
  | vint (n : Int) : Value
  | vlist (xs : List Value) : Value
  | vmap (m : List (String × Value)) : Value

/-- The primitive Python types that appear as leaves of the
`required_structure` schema in `validate_theme_config`: `str`, `bool`,
`int`, `list`. -/
inductive PTy where
  | str | bool | int | list
deriving DecidableEq

/-- A value of the `required_structure` dict in
`ColorCatThemes.validate_theme_config`: either a primitive type object or
a nested schema dict. -/
inductive SchemaVal where
  | prim (t : PTy) : SchemaVal
  | node (fields : List (String × SchemaVal)) : SchemaVal

/-- Python `config.get(key)` on a dict: the stored value if the key is
present, and `None` otherwise (so an absent key and a key stored with
value `None` are indistinguishable, exactly as in the source). -/
def pyGet (config : List (String × Value)) (key : String) : Value :=
  match config.find? (fun p => p.1 == key) with
  | some p => p.2
  | none => .null

/-- Python `isinstance(v, t)` for the schema's leaf types. Note that in
Python `bool` is a subclass of `int`, so a boolean value satisfies
`isinstance(v, int)`; `None` is no instance of any of the four types. -/
def isinstanceP (v : Value) (t : PTy) : Bool :=
  match t, v with
  | .str, .vstr _ => true
  | .bool, .vbool _ => true
  | .int, .vint _ => true
  | .int, .vbool _ => true
  | .list, .vlist _ => true
  | _, _ => false

/-- Python `'.'.join(path)` as used for the dotted key-paths reported by
`check_structure`. -/
def dotted (path : List String) : String :=
  String.intercalate "." path

/-- Embedding of `ColorCatThemes.check_structure` (src/colorcat-config-wip.py:420-441):
recursively checks `config` against the required `structure`, returning
the ordered lists of dotted paths of missing keys and of keys of
incorrect type.  For each `(key, expected)` of the schema in order:
a nested schema requires the value to be a present dict (otherwise the
key-path is reported missing) and recurses; a primitive leaf requires the
value to be present (`is None` reports missing) and an instance of the
expected type (otherwise a type mismatch). -/
def check_structure : List (String × Value) → List (String × SchemaVal) →
    List String → List String × List String
  | _, [], _ => ([], [])
  | config, (key, .prim t) :: rest, path =>
      let newPath := path ++ [key]
      let tl := check_structure config rest path
      match pyGet config key with
      | .null => (dotted newPath :: tl.1, tl.2)
      | v => if isinstanceP v t then tl else (tl.1, dotted newPath :: tl.2)
  | config, (key, .node sub) :: rest, path =>
      let newPath := path ++ [key]
      let tl := check_structure config rest path
      match pyGet config key with
      | .vmap m =>
          let s := check_structure m sub newPath
          (s.1 ++ tl.1, s.2 ++ tl.2)
      | _ => (dotted newPath :: tl.1, tl.2)
termination_by _ s _ => sizeOf s

/-- Specification-side predicate, from the spec's words: every schema
leaf key is present in the document with the declared primitive type,
where presence of a leaf under a nested schema requires every enclosing
key to be present as a sub-mapping.  (Being of the declared type means
Python `isinstance`, under which a boolean is also an integer.) -/
def schemaSatisfied : List (String × Value) → List (String × SchemaVal) → Bool
  | _, [] => true
  | config, (key, .prim t) :: rest =>
      isinstanceP (pyGet config key) t && schemaSatisfied config rest
  | config, (key, .node sub) :: rest =>
      (match pyGet config key with
       | .vmap m => schemaSatisfied m sub
       | _ => false) && schemaSatisfied config rest
termination_by _ s => sizeOf s

/-- C1: `check_structure` returns a pair of empty lists if and only if
every schema leaf key is present in the document with the declared
primitive type; otherwise the two returned lists (of dotted key-paths of
missing keys and of type mismatches) are not both empty. -/
theorem check_structure_empty_iff (config : List (String × Value))
    (s : List (String × SchemaVal)) (path : List String) :
    check_structure config s path = ([], []) ↔
      schemaSatisfied config s = true := by
  induction config, s, path using check_structure.induct with
  | case1 config path =>
      simp [check_structure, schemaSatisfied]
  | case2 config key t rest path hnull ih =>
      simp [check_structure, schemaSatisfied, hnull, isinstanceP]
  | case3 config key t rest path hnn hinst ih =>
      rcases hv : pyGet config key with _ | s | b | n | xs | m <;>
        first
        | exact (hnn hv).elim
        | (rw [hv] at hinst
           simp [check_structure, schemaSatisfied, hv, hinst, ih])
  | case4 config key t rest path hnn hinst ih =>
      rcases hv : pyGet config key with _ | s | b | n | xs | m <;>
        first
        | exact (hnn hv).elim
        | (rw [hv] at hinst
           simp [check_structure, schemaSatisfied, hv, hinst, ih])
  | case5 config key sub rest path newPath m hget ihrest ihsub =>
      simp only [check_structure, schemaSatisfied, hget, Bool.and_eq_true]
      rw [← ihsub, ← ihrest]
      cases hca : check_structure m sub (path ++ [key]) with
      | mk a1 a2 =>
        cases hcb : check_structure config rest path with
        | mk b1 b2 =>
          simp only [Prod.ext_iff, List.append_eq_nil]
          tauto
  | case6 config key sub rest path hget ihrest =>
      rcases hv : pyGet config key with _ | s | b | n | xs | m <;>
        first
        | exact (hget m hv).elim
        | simp [check_structure, schemaSatisfied, hv]

/-! ## Theme registry and validator caller

The themes directory `<root>/themes` is modelled as an association list
from file name (`<name>.yaml`) to the parsed document stored in the file.
`yaml.dump` followed by `yaml.safe_load` is modelled as the identity on
the document value (the external YAML library is assumed value-faithful,
as the spec's document-format interface requires). -/

/-- The themes-directory filesystem: file name to parsed document. -/
abbrev FS := List (String × Value)

/-- Reading the file `name` from the themes directory: `some` document if
the file exists, `none` otherwise. -/
def findFile (store : FS) (name : String) : Option Value :=
  (store.find? (fun p => p.1 == name)).map (fun p => p.2)

/-- Writing the file `name`: overwrite the existing file or create it. -/
def setFile : FS → String → Value → FS
  | [], name, v => [(name, v)]
  | (n', v') :: rest, name, v =>
      if n' == name then (name, v) :: rest else (n', v') :: setFile rest name v

/-- Embedding of `ColorCatThemes.get_default_theme_config`
(src/colorcat-config-wip.py:194-271): the in-memory default theme
document.  (A left or right curly-brace character is written `\x7b` or
`\x7d`.) -/
def get_default_theme_config : Value :=
  .vmap [
    ("offset_settings", .vmap [
      ("default_fg_offset", .vint 0),
      ("default_bg_offset", .vint 0),
      ("highlight_intensity", .vint 5)]),
    ("config_settings", .vmap [
      ("color_upper_bound", .vint 255),
      ("colorcat_root_dir", .vstr "~/.config/colorcat"),
      ("line_numbering", .vbool false),
      ("theme_name", .vstr "default"),
      ("themes_dir", .vstr "themes/"),
      ("autogen_themes_directory", .vstr "autogen-themes/"),
      ("autogen_themes", .vbool true)]),
    ("color_settings", .vmap [
      ("default_color", .vmap [("fg_color", .vstr "\x1b[38;5;15m"), ("bg_color", .vstr "\x1b[48;5;0m"), ("chars", .vlist [])]),
      ("error", .vmap [("fg_color", .vstr "\x1b[38;5;181m"), ("bg_color", .vstr "\x1b[48;5;0m"), ("chars", .vlist [.vstr "ERR"])]),
      ("reset", .vmap [("fg_color", .vstr "\x1b[0m"), ("bg_color", .vstr "\x1b[0m"), ("chars", .vlist [.vstr "\x1b[0m"])]),
      ("curly_braces", .vmap [("fg_color", .vstr "\x1b[38;5;1m"), ("bg_color", .vstr "\x1b[48;5;0m"), ("chars", .vlist [.vstr "\x7b", .vstr "\x7d"])]),
      ("parens", .vmap [("fg_color", .vstr "\x1b[38;5;163m"), ("bg_color", .vstr "\x1b[48;5;0m"), ("chars", .vlist [.vstr "(", .vstr ")"])]),
      ("bracket_square", .vmap [("fg_color", .vstr "\x1b[38;5;195m"), ("bg_color", .vstr "\x1b[48;5;0m"), ("chars", .vlist [.vstr "[", .vstr "]"])]),
      ("greater_than_less_than", .vmap [("fg_color", .vstr "\x1b[38;5;201m"), ("bg_color", .vstr "\x1b[48;5;0m"), ("chars", .vlist [.vstr "<", .vstr ">"])]),
      ("single_quote", .vmap [("fg_color", .vstr "\x1b[38;5;11m"), ("bg_color", .vstr "\x1b[48;5;0m"), ("chars", .vlist [.vstr "'"])]),
      ("double_quote", .vmap [("fg_color", .vstr "\x1b[38;5;207m"), ("bg_color", .vstr "\x1b[48;5;0m"), ("chars", .vlist [.vstr "\""])]),
      ("smart_quote", .vmap [("fg_color", .vstr "\x1b[38;5;84m"), ("bg_color", .vstr "\x1b[48;5;0m"), ("chars", .vlist [.vstr "“", .vstr "”"])]),
      ("curly_quote", .vmap [("fg_color", .vstr "\x1b[38;5;86m"), ("bg_color", .vstr "\x1b[48;5;0m"), ("chars", .vlist [.vstr "‘", .vstr "’"])]),
      ("double_low_9_quotation_mark", .vmap [("fg_color", .vstr "\x1b[38;5;121m"), ("bg_color", .vstr "\x1b[48;5;0m"), ("chars", .vlist [.vstr "„", .vstr "‟"])]),
      ("multi_line_comment", .vmap [("fg_color", .vstr "\x1b[38;5;32m"), ("bg_color", .vstr "\x1b[48;5;0m"), ("chars", .vlist [.vstr "/*", .vstr "*/"])]),
      ("single_line_comment", .vmap [("fg_color", .vstr "\x1b[38;5;36m"), ("bg_color", .vstr "\x1b[48;5;0m"), ("chars", .vlist [.vstr "//"])]),
      ("backtick", .vmap [("fg_color", .vstr "\x1b[38;5;47m"), ("bg_color", .vstr "\x1b[48;5;0m"), ("chars", .vlist [.vstr "`"])]),
      ("comma", .vmap [("fg_color", .vstr "\x1b[38;5;112m"), ("bg_color", .vstr "\x1b[48;5;0m"), ("chars", .vlist [.vstr ","])]),
      ("colon", .vmap [("fg_color", .vstr "\x1b[38;5;172m"), ("bg_color", .vstr "\x1b[48;5;0m"), ("chars", .vlist [.vstr ":"])]),
      ("semicolon", .vmap [("fg_color", .vstr "\x1b[38;5;79m"), ("bg_color", .vstr "\x1b[48;5;0m"), ("chars", .vlist [.vstr ";"])]),
      ("period", .vmap [("fg_color", .vstr "\x1b[38;5;184m"), ("bg_color", .vstr "\x1b[48;5;0m"), ("chars", .vlist [.vstr "."])]),
      ("ellipsis", .vmap [("fg_color", .vstr "\x1b[38;5;186m"), ("bg_color", .vstr "\x1b[48;5;0m"), ("chars", .vlist [.vstr "..."])]),
      ("exclamation", .vmap [("fg_color", .vstr "\x1b[38;5;155m"), ("bg_color", .vstr "\x1b[48;5;0m"), ("chars", .vlist [.vstr "!"])]),
      ("question", .vmap [("fg_color", .vstr "\x1b[38;5;87m"), ("bg_color", .vstr "\x1b[48;5;0m"), ("chars", .vlist [.vstr "?"])]),
      ("forward_slash", .vmap [("fg_color", .vstr "\x1b[38;5;192m"), ("bg_color", .vstr "\x1b[48;5;0m"), ("chars", .vlist [.vstr "/"])]),
      ("backslash", .vmap [("fg_color", .vstr "\x1b[38;5;220m"), ("bg_color", .vstr "\x1b[48;5;0m"), ("chars", .vlist [.vstr "\\"])]),
      ("plus", .vmap [("fg_color", .vstr "\x1b[38;5;208m"), ("bg_color", .vstr "\x1b[48;5;0m"), ("chars", .vlist [.vstr "+"])]),
      ("minus", .vmap [("fg_color", .vstr "\x1b[38;5;127m"), ("bg_color", .vstr "\x1b[48;5;0m"), ("chars", .vlist [.vstr "-"])]),
      ("equals", .vmap [("fg_color", .vstr "\x1b[38;5;202m"), ("bg_color", .vstr "\x1b[48;5;0m"), ("chars", .vlist [.vstr "="])]),
      ("greater_than", .vmap [("fg_color", .vstr "\x1b[38;5;201m"), ("bg_color", .vstr "\x1b[48;5;0m"), ("chars", .vlist [.vstr ">"])]),
      ("less_than", .vmap [("fg_color", .vstr "\x1b[38;5;201m"), ("bg_color", .vstr "\x1b[48;5;0m"), ("chars", .vlist [.vstr "<"])]),
      ("ampersand", .vmap [("fg_color", .vstr "\x1b[38;5;226m"), ("bg_color", .vstr "\x1b[48;5;0m"), ("chars", .vlist [.vstr "&"])]),
      ("pipe", .vmap [("fg_color", .vstr "\x1b[38;5;226m"), ("bg_color", .vstr "\x1b[48;5;0m"), ("chars", .vlist [.vstr "|"])]),
      ("caret", .vmap [("fg_color", .vstr "\x1b[38;5;226m"), ("bg_color", .vstr "\x1b[48;5;0m"), ("chars", .vlist [.vstr "^"])]),
      ("tilde", .vmap [("fg_color", .vstr "\x1b[38;5;226m"), ("bg_color", .vstr "\x1b[48;5;0m"), ("chars", .vlist [.vstr "~"])]),
      ("at", .vmap [("fg_color", .vstr "\x1b[38;5;226m"), ("bg_color", .vstr "\x1b[48;5;0m"), ("chars", .vlist [.vstr "@"])]),
      ("hash", .vmap [("fg_color", .vstr "\x1b[38;5;226m"), ("bg_color", .vstr "\x1b[48;5;0m"), ("chars", .vlist [.vstr "#"])]),
      ("dollar", .vmap [("fg_color", .vstr "\x1b[38;5;226m"), ("bg_color", .vstr "\x1b[48;5;0m"), ("chars", .vlist [.vstr "$"])]),
      ("percent", .vmap [("fg_color", .vstr "\x1b[38;5;226m"), ("bg_color", .vstr "\x1b[48;5;0m"), ("chars", .vlist [.vstr "%"])]),
      ("asterisk", .vmap [("fg_color", .vstr "\x1b[38;5;226m"), ("bg_color", .vstr "\x1b[48;5;0m"), ("chars", .vlist [.vstr "*"])]),
      ("underscore", .vmap [("fg_color", .vstr "\x1b[38;5;39m"), ("bg_color", .vstr "\x1b[48;5;0m"), ("chars", .vlist [.vstr "_"])]),
      ("hyphen", .vmap [("fg_color", .vstr "\x1b[38;5;226m"), ("bg_color", .vstr "\x1b[48;5;0m"), ("chars", .vlist [.vstr "-"])]),
      ("plus_minus", .vmap [("fg_color", .vstr "\x1b[38;5;226m"), ("bg_color", .vstr "\x1b[48;5;0m"), ("chars", .vlist [.vstr "±"])]),
      ("section", .vmap [("fg_color", .vstr "\x1b[38;5;226m"), ("bg_color", .vstr "\x1b[48;5;0m"), ("chars", .vlist [.vstr "§"])]),
      ("pound", .vmap [("fg_color", .vstr "\x1b[38;5;226m"), ("bg_color", .vstr "\x1b[48;5;0m"), ("chars", .vlist [.vstr "£"])]),
      ("period_centered", .vmap [("fg_color", .vstr "\x1b[38;5;226m"), ("bg_color", .vstr "\x1b[48;5;0m"), ("chars", .vlist [.vstr "·"])]),
      ("degree", .vmap [("fg_color", .vstr "\x1b[38;5;226m"), ("bg_color", .vstr "\x1b[48;5;0m"), ("chars", .vlist [.vstr "°"])]),
      ("multiply", .vmap [("fg_color", .vstr "\x1b[38;5;226m"), ("bg_color", .vstr "\x1b[48;5;0m"), ("chars", .vlist [.vstr "×"])]),
      ("divide", .vmap [("fg_color", .vstr "\x1b[38;5;226m"), ("bg_color", .vstr "\x1b[48;5;0m"), ("chars", .vlist [.vstr "÷"])]),
      ("infinity", .vmap [("fg_color", .vstr "\x1b[38;5;226m"), ("bg_color", .vstr "\x1b[48;5;0m"), ("chars", .vlist [.vstr "∞"])]),
      ("not_equal", .vmap [("fg_color", .vstr "\x1b[38;5;226m"), ("bg_color", .vstr "\x1b[48;5;0m"), ("chars", .vlist [.vstr "≠"])]),
      ("less_than_or_equal", .vmap [("fg_color", .vstr "\x1b[38;5;226m"), ("bg_color", .vstr "\x1b[48;5;0m"), ("chars", .vlist [.vstr "≤"])]),
      ("greater_than_or_equal", .vmap [("fg_color", .vstr "\x1b[38;5;226m"), ("bg_color", .vstr "\x1b[48;5;0m"), ("chars", .vlist [.vstr "≥"])]),
      ("integral", .vmap [("fg_color", .vstr "\x1b[38;5;226m"), ("bg_color", .vstr "\x1b[48;5;0m"), ("chars", .vlist [.vstr "∫"])]),
      ("sum", .vmap [("fg_color", .vstr "\x1b[38;5;226m"), ("bg_color", .vstr "\x1b[48;5;0m"), ("chars", .vlist [.vstr "∑"])]),
      ("product", .vmap [("fg_color", .vstr "\x1b[38;5;226m"), ("bg_color", .vstr "\x1b[48;5;0m"), ("chars", .vlist [.vstr "∏"])]),
      ("square_root", .vmap [("fg_color", .vstr "\x1b[38;5;226m"), ("bg_color", .vstr "\x1b[48;5;0m"), ("chars", .vlist [.vstr "√"])]),
      ("proportional_to", .vmap [("fg_color", .vstr "\x1b[38;5;226m"), ("bg_color", .vstr "\x1b[48;5;0m"), ("chars", .vlist [.vstr "∝"])]),
      ("logical_and", .vmap [("fg_color", .vstr "\x1b[38;5;226m"), ("bg_color", .vstr "\x1b[48;5;0m"), ("chars", .vlist [.vstr "∧"])]),
      ("logical_or", .vmap [("fg_color", .vstr "\x1b[38;5;226m"), ("bg_color", .vstr "\x1b[48;5;0m"), ("chars", .vlist [.vstr "∨"])])])]

/-- Embedding of `ColorCatThemes.load_theme_config`
(src/colorcat-config-wip.py:87-96): read `<theme_name>.yaml` from the
themes directory if it exists, otherwise fall back to the in-memory
default theme configuration (a notice is printed; no error is raised). -/
def load_theme_config (store : FS) (theme_name : String) : Value :=
  match findFile store (theme_name ++ ".yaml") with
  | some v => v
  | none => get_default_theme_config

/-- Embedding of `ColorCatThemes.save_theme_config_file`
(src/colorcat-config-wip.py:98-111): if no theme name is provided (the
empty string is falsy in Python) print a notice and do nothing, else
write the current theme configuration to `<theme_name>.yaml`. -/
def save_theme_config_file (store : FS) (theme_name : String)
    (current : Value) : FS :=
  if theme_name = "" then store
  else setFile store (theme_name ++ ".yaml") current

/-- Embedding of `ColorCatThemes.delete_theme` (src/colorcat-config-wip.py:443-454):
unlink `<theme_name>.yaml` if it exists, otherwise print a notice and do
nothing; no exception escapes. -/
def delete_theme (store : FS) (theme_name : String) : FS :=
  if (findFile store (theme_name ++ ".yaml")).isSome then
    store.filter (fun p => p.1 != theme_name ++ ".yaml")
  else store

theorem findFile_setFile_self (store : FS) (name : String) (v : Value) :
    findFile (setFile store name v) name = some v := by
  induction store with
  | nil => simp [setFile, findFile]
  | cons hd tl ih =>
      rcases hd with ⟨n', v'⟩
      by_cases h : n' == name
      · simp [setFile, findFile, h]
      · simpa [setFile, findFile, h] using ih

/-- C7: saving the current theme document under a (nonempty) name and
then loading that same name returns the document that was saved, for
every prior state of the themes directory (YAML serialisation modelled as
value-faithful). -/
theorem save_then_load_roundtrip (store : FS) (name : String)
    (current : Value) (h : name ≠ "") :
    load_theme_config (save_theme_config_file store name current) name
      = current := by
  unfold save_theme_config_file
  rw [if_neg h]
  unfold load_theme_config
  rw [findFile_setFile_self]

/-- Witness for C7 at a concrete store, name and document. -/
theorem save_then_load_roundtrip_witness :
    load_theme_config
        (save_theme_config_file [] "mytheme" (.vmap [("k", .vint 3)]))
        "mytheme"
      = .vmap [("k", .vint 3)] :=
  save_then_load_roundtrip [] "mytheme" (.vmap [("k", .vint 3)])
    (by decide)

theorem find?_filter_ne_none (k : String) (store : FS) :
    (store.filter (fun p => p.1 != k)).find? (fun p => p.1 == k) = none := by
  rw [List.find?_eq_none]
  intro x hx
  rcases List.mem_filter.mp hx with ⟨-, hpx⟩
  simpa using hpx

/-- C8: deleting a theme whose file does not exist leaves the themes
directory unchanged (a notice only, no exception), and deleting an
existing theme removes its file. -/
theorem delete_theme_spec (store : FS) (name : String) :
    (findFile store (name ++ ".yaml") = none →
      delete_theme store name = store) ∧
    (findFile store (name ++ ".yaml") ≠ none →
      findFile (delete_theme store name) (name ++ ".yaml") = none) := by
  constructor
  · intro h
    simp [delete_theme, h]
  · intro h
    have hs : (findFile store (name ++ ".yaml")).isSome := by
      cases hv : findFile store (name ++ ".yaml") with
      | none => exact absurd hv h
      | some v => simp
    simp only [delete_theme, hs, if_pos]
    simp [findFile, find?_filter_ne_none]

/-- Witness for C8: a missing file is a no-op on an empty directory, and
deleting an existing file removes it. -/
theorem delete_theme_spec_witness :
    delete_theme [] "a" = [] ∧
    findFile (delete_theme [("b.yaml", .vmap [])] "b") "b.yaml" = none :=
  ⟨(delete_theme_spec [] "a").1 rfl,
   (delete_theme_spec [("b.yaml", .vmap [])] "b").2 (by simp [findFile])⟩

/-- One `color_settings` entry of the `required_structure` schema in
`validate_theme_config`: the literal
`{'fg_color': str, 'bg_color': str, 'chars': list}` repeated in the
source for every colour key. -/
def colorEntrySchema : SchemaVal :=
  .node [("fg_color", .prim .str), ("bg_color", .prim .str),
         ("chars", .prim .list)]

/-- The `required_structure` dict of
`ColorCatThemes.validate_theme_config`
(src/colorcat-config-wip.py:329-404). -/
def required_structure : List (String × SchemaVal) := [
  ("offset_settings", .node [
    ("default_fg_offset", .prim .int),
    ("default_bg_offset", .prim .int),
    ("highlight_intensity", .prim .int)]),
  ("config_settings", .node [
    ("color_upper_bound", .prim .int),
    ("colorcat_root_dir", .prim .str),
    ("line_numbering", .prim .bool),
    ("theme_name", .prim .str),
    ("themes_dir", .prim .str),
    ("autogen_themes_directory", .prim .str),
    ("autogen_themes", .prim .bool)]),
  ("color_settings", .node [
    ("default_color", colorEntrySchema), ("error", colorEntrySchema),
    ("reset", colorEntrySchema), ("curly_braces", colorEntrySchema),
    ("parens", colorEntrySchema), ("bracket_square", colorEntrySchema),
    ("greater_than_less_than", colorEntrySchema),
    ("single_quote", colorEntrySchema), ("double_quote", colorEntrySchema),
    ("smart_quote", colorEntrySchema), ("curly_quote", colorEntrySchema),
    ("double_low_9_quotation_mark", colorEntrySchema),
    ("multi_line_comment", colorEntrySchema),
    ("single_line_comment", colorEntrySchema),
    ("backtick", colorEntrySchema), ("comma", colorEntrySchema),
    ("colon", colorEntrySchema), ("semicolon", colorEntrySchema),
    ("period", colorEntrySchema), ("ellipsis", colorEntrySchema),
    ("exclamation", colorEntrySchema), ("question", colorEntrySchema),
    ("forward_slash", colorEntrySchema), ("backslash", colorEntrySchema),
    ("plus", colorEntrySchema), ("minus", colorEntrySchema),
    ("equals", colorEntrySchema), ("greater_than", colorEntrySchema),
    ("less_than", colorEntrySchema), ("ampersand", colorEntrySchema),
    ("pipe", colorEntrySchema), ("caret", colorEntrySchema),
    ("tilde", colorEntrySchema), ("at", colorEntrySchema),
    ("hash", colorEntrySchema), ("dollar", colorEntrySchema),
    ("percent", colorEntrySchema), ("asterisk", colorEntrySchema),
    ("underscore", colorEntrySchema), ("hyphen", colorEntrySchema),
    ("plus_minus", colorEntrySchema), ("section", colorEntrySchema),
    ("pound", colorEntrySchema), ("period_centered", colorEntrySchema),
    ("degree", colorEntrySchema), ("multiply", colorEntrySchema),
    ("divide", colorEntrySchema), ("infinity", colorEntrySchema),
    ("not_equal", colorEntrySchema),
    ("less_than_or_equal", colorEntrySchema),
    ("greater_than_or_equal", colorEntrySchema),
    ("integral", colorEntrySchema), ("sum", colorEntrySchema),
    ("product", colorEntrySchema), ("square_root", colorEntrySchema),
    ("proportional_to", colorEntrySchema),
    ("logical_and", colorEntrySchema), ("logical_or", colorEntrySchema)])]

/-- Embedding of `ColorCatThemes.validate_theme_config`
(src/colorcat-config-wip.py:314-417), as a transformer of the themes
directory: returns the validated document (`some config`) on success and
`none` when the file does not exist or validation reports issues; the
second component is the themes directory after the call.  When the file
stores a non-mapping document, `config.get` inside `check_structure`
raises `AttributeError` (modelled as `.error`).  The source handles a
failed validation by printing the issues and returning `None` — it
performs no filesystem operation whatsoever, so the directory is
returned unchanged on every path. -/
def validate_theme_config (store : FS) (theme_name : String) :
    Except String (Option Value) × FS :=
  match findFile store (theme_name ++ ".yaml") with
  | none => (.ok none, store)
  | some (.vmap m) =>
      let r := check_structure m required_structure []
      if r.1 ≠ [] ∨ r.2 ≠ [] then (.ok none, store)
      else (.ok (some (.vmap m)), store)
  | some _ => (.error "AttributeError", store)

/-- C6 (counterexample): a concrete themes directory holding the invalid
document `{}` under `bad.yaml`.  `validate_theme_config` reports the
issues and returns `None`, but the directory afterwards is identical to
the directory before: the invalid file is still in place under its own
name, no timestamped backup was created and no default document was
regenerated — refuting the claimed backup-and-regenerate recovery. -/
theorem validate_theme_config_no_recovery_counterexample :
    validate_theme_config [("bad.yaml", .vmap [])] "bad"
      = (.ok none, [("bad.yaml", .vmap [])]) := by
  simp [validate_theme_config, findFile, check_structure,
    required_structure, pyGet, dotted]

/-- C6 (amended): whenever the stored document is a mapping on which
`check_structure` reports a missing key or a type mismatch,
`validate_theme_config` returns `None` and leaves the themes directory
exactly as it was: the invalid file stays in place and nothing is
renamed, backed up or regenerated. -/
theorem validate_theme_config_failure_leaves_store
    (store : FS) (name : String) (m : List (String × Value))
    (hfile : findFile store (name ++ ".yaml") = some (.vmap m))
    (hbad : check_structure m required_structure [] ≠ ([], [])) :
    validate_theme_config store name = (.ok none, store) := by
  unfold validate_theme_config
  rw [hfile]
  have hb : (check_structure m required_structure []).1 ≠ [] ∨
      (check_structure m required_structure []).2 ≠ [] := by
    rcases hc : check_structure m required_structure [] with ⟨a, b⟩
    rw [hc] at hbad
    by_contra hcon
    push_neg at hcon
    exact hbad (Prod.ext_iff.mpr ⟨hcon.1, hcon.2⟩)
  simp only [hb, if_pos]

/-- Witness for C6's amended theorem at the concrete invalid store. -/
theorem validate_theme_config_failure_leaves_store_witness :
    validate_theme_config [("bad.yaml", .vmap [])] "bad"
      = (.ok none, [("bad.yaml", .vmap [])]) ∧
    check_structure [] required_structure [] ≠ ([], []) := by
  have hbad : check_structure [] required_structure [] ≠ ([], []) := by
    simp [check_structure, required_structure, pyGet, dotted]
  exact ⟨validate_theme_config_failure_leaves_store
    [("bad.yaml", .vmap [])] "bad" [] (by simp [findFile]) hbad, hbad⟩

/-! ## Offset engine

`ColorCatThemes.offset_color` (src/colorcat-config-wip.py:509-543).
`parse_offset_args` scans `offset_args` with
`re.finditer(r"(all|\w+)\s*(\d+)?,?\s*(\d+)?", ..., re.IGNORECASE)`.
Because everything after the first group is optional, the engine never
backtracks into group 1: at each scan position, a match starts exactly at
the first word character; group 1 is the literal `all` (case-insensitive,
tried first by the ordered alternation) when the next three characters
spell it, and otherwise the maximal word-character run; then maximal
whitespace, an optional maximal digit run, an optional comma, maximal
whitespace and an optional maximal digit run follow, each over disjoint
character classes so no backtracking can occur; scanning resumes after
the match.  Character classes are the ASCII fragments of Python's `\w`,
`\s` and `\d` (enough for the colour-offset syntax, which is ASCII). -/

/-- ASCII fragment of Python's regex class `\w`. -/
def isWordChar (c : Char) : Bool := c.isAlphanum || c == '_'

/-- ASCII fragment of Python's regex class `\s`. -/
def isSpaceChar (c : Char) : Bool :=
  c == ' ' || c == '\t' || c == '\n' || c == '\r' || c == '\x0b' || c == '\x0c'

/-- A regex group that matched no characters is unset (`None`). -/
def optGroup (l : List Char) : Option String :=
  if l = [] then none else some (String.mk l)

/-- One match of `(all|\w+)\s*(\d+)?,?\s*(\d+)?` at a position whose
first character is a word character: the three captured groups and the
remainder of the input after the match. -/
def wipStep (t : List Char) : (String × Option String × Option String) × List Char :=
  let p := if (t.take 3).map Char.toLower = ['a', 'l', 'l']
           then (t.take 3, t.drop 3)
           else (t.takeWhile isWordChar, t.dropWhile isWordChar)
  let r2 := p.2.dropWhile isSpaceChar
  let d1 := r2.takeWhile Char.isDigit
  let r3 := r2.dropWhile Char.isDigit
  let r4 := match r3 with
            | ',' :: tl => tl
            | other => other
  let r5 := r4.dropWhile isSpaceChar
  let d2 := r5.takeWhile Char.isDigit
  let r6 := r5.dropWhile Char.isDigit
  ((String.mk p.1, optGroup d1, optGroup d2), r6)

theorem dropWhile_length_le (p : Char → Bool) (l : List Char) :
    (l.dropWhile p).length ≤ l.length := by
  induction l with
  | nil => simp
  | cons a t ih =>
      rw [List.dropWhile_cons]
      split
      · exact Nat.le_succ_of_le ih
      · simp

theorem dropComma_length_le (l : List Char) :
    (match l with | ',' :: tl => tl | other => other).length ≤ l.length := by
  split
  · simp [Nat.le_succ]
  · exact Nat.le_refl _

theorem wipStep_rest_length (c : Char) (cs : List Char)
    (h : isWordChar c = true) :
    ((wipStep (c :: cs)).2).length < (c :: cs).length := by
  unfold wipStep
  have h1 : ((if ((c :: cs).take 3).map Char.toLower = ['a', 'l', 'l']
      then ((c :: cs).take 3, (c :: cs).drop 3)
      else ((c :: cs).takeWhile isWordChar,
            (c :: cs).dropWhile isWordChar)).2).length < (c :: cs).length := by
    split
    · show ((c :: cs).drop 3).length < (c :: cs).length
      rw [List.length_drop]
      simp [Nat.sub_lt_succ]
    · rw [List.dropWhile_cons, if_pos h]
      exact Nat.lt_succ_of_le (dropWhile_length_le _ _)
  refine Nat.lt_of_le_of_lt ?_ h1
  exact le_trans (dropWhile_length_le _ _)
    (le_trans (dropWhile_length_le _ _)
      (le_trans (dropComma_length_le _)
        (le_trans (dropWhile_length_le _ _) (dropWhile_length_le _ _))))

set_option linter.unusedVariables false in
/-- Python `re.finditer` of the offset pattern over the input: skip
non-word characters; at a word character emit the match produced by
`wipStep` and resume after it. -/
def wipScan : List Char → List (String × Option String × Option String)
  | [] => []
  | c :: cs =>
      if h : isWordChar c then
        (wipStep (c :: cs)).1 :: wipScan (wipStep (c :: cs)).2
      else wipScan cs
termination_by l => l.length
decreasing_by
  · exact wipStep_rest_length c cs h
  · simp

/-- Python `int` on the (nonempty, all-digit) text of a `(\d+)` group. -/
def digitsToInt (s : String) : Int :=
  s.data.foldl (fun a c => a * 10 + ((c.toNat : Int) - 48)) 0

/-- The `offsets` defaultdict: key to `(fg, bg)` offset pair, insertion
ordered. -/
abbrev Offsets := List (String × Int × Int)

def findOffset (offs : Offsets) (k : String) : Option (Int × Int) :=
  (offs.find? (fun p => p.1 == k)).map (fun p => p.2)

/-- Assignment `offsets[key]['fg'] = v`: `defaultdict` inserts `{'fg': 0, 'bg': 0}`
for an absent key before the field is written. -/
def setOffsetFg (offs : Offsets) (k : String) (v : Int) : Offsets :=
  if (offs.find? (fun p => p.1 == k)).isSome then
    offs.map (fun p => if p.1 == k then (p.1, v, p.2.2) else p)
  else offs ++ [(k, v, 0)]

/-- Assignment `offsets[key]['bg'] = v`, as for `setOffsetFg`. -/
def setOffsetBg (offs : Offsets) (k : String) (v : Int) : Offsets :=
  if (offs.find? (fun p => p.1 == k)).isSome then
    offs.map (fun p => if p.1 == k then (p.1, p.2.1, v) else p)
  else offs ++ [(k, 0, v)]

/-- Embedding of `parse_offset_args` (src/colorcat-config-wip.py:514-524): for every
match, set the `fg`/`bg` offset of the matched key for each group that
is present (`if fg_offset:` is true exactly when the group matched,
since a `(\d+)` group is never empty). -/
def parse_offset_args (offset_args : String) : Offsets :=
  (wipScan offset_args.data).foldl
    (fun offs m =>
      let offs1 := match m.2.1 with
                   | some d => setOffsetFg offs m.1 (digitsToInt d)
                   | none => offs
      match m.2.2 with
      | some d => setOffsetBg offs1 m.1 (digitsToInt d)
      | none => offs1)
    []

/-- A per-category colour-codes dict: `none` models an absent
`'fg'`/`'bg'` key (the source only updates a channel `if 'fg' in
color_codes`). -/
structure ColorCodes where
  fg : Option Int
  bg : Option Int
deriving DecidableEq

/-- Embedding of `wrap_color_value(value, offset, max_value=255)`
(src/colorcat-config-wip.py:526-527, identical in src/colorcat.py:452):
`(value + offset) % max_value` with the default `max_value = 255` used
at every call site (Python's `%` on a positive modulus agrees with
`Int.emod`). -/
def wrap_color_value (value offset : Int) : Int := (value + offset) % 255

/-- Access of `offsets['all']` evaluated inside `offsets.get(category,
offsets['all'])`: a `defaultdict` access that inserts the default entry
when `'all'` is absent, so later iterations see `'all' in offsets`. -/
def ensureAll (offs : Offsets) : Offsets :=
  if (offs.find? (fun p => p.1 == "all")).isSome then offs
  else offs ++ [("all", 0, 0)]

/-- Embedding of `apply_offsets_to_config` (src/colorcat-config-wip.py:529-539): walk
`config['meow_colors']`; a category present in `offsets` (or any
category once `'all'` is a key) gets each present channel wrapped by the
category's offsets, defaulting to the `'all'` entry.  The `offsets`
defaultdict is threaded through the loop because evaluating
`offsets['all']` mutates it. -/
def apply_offsets_to_config :
    List (String × ColorCodes) → Offsets → List (String × ColorCodes)
  | [], _ => []
  | (category, codes) :: rest, offs =>
      if (findOffset offs category).isSome ||
          (findOffset offs "all").isSome then
        let offs' := ensureAll offs
        let pair := (findOffset offs' category).getD
          ((findOffset offs' "all").getD (0, 0))
        let codes' : ColorCodes :=
          { fg := codes.fg.map (fun v => wrap_color_value v pair.1),
            bg := codes.bg.map (fun v => wrap_color_value v pair.2) }
        (category, codes') :: apply_offsets_to_config rest offs'
      else (category, codes) :: apply_offsets_to_config rest offs

/-- The document shape `offset_color` requires: a `meow_colors` mapping
from category to colour codes (other top-level keys are untouched by the
function and omitted from the model). -/
structure MeowConfig where
  meow_colors : List (String × ColorCodes)
deriving DecidableEq

namespace ColorCatThemes

/-- Embedding of `ColorCatThemes.offset_color` (src/colorcat-config-wip.py:509-543),
as the value of the document it returns: parse the offsets and apply
them to the categories of `config['meow_colors']`. -/
def offset_color (offset_args : String) (config : MeowConfig) : MeowConfig :=
  ⟨apply_offsets_to_config config.meow_colors
    (parse_offset_args offset_args)⟩

end ColorCatThemes

/-! ### Heap model of `offset_color`

In the source, `offset_color` runs `apply_offsets_to_config(config.copy(),
offsets)`.  `config.copy()` is a shallow copy: the top-level dict is
fresh, but the `meow_colors` dict and every per-category `color_codes`
dict are the same objects as in the caller's document, and the loop
assigns `color_codes['fg'] = ...` into those shared dicts.  To state what
the caller observes, the per-category dicts are modelled as references
into an explicit store. -/

/-- The store of per-category `color_codes` dicts, addressed by
reference. -/
abbrev CodesStore := List (Nat × ColorCodes)

/-- Dereference a `color_codes` object (every reference used below is
allocated in the store; the default is never hit). -/
def storeRead (st : CodesStore) (r : Nat) : ColorCodes :=
  (((st.find? (fun p => p.1 == r))).map (fun p => p.2)).getD ⟨none, none⟩

/-- In-place assignment into the `color_codes` dict at reference `r`. -/
def storeWrite (st : CodesStore) (r : Nat) (codes : ColorCodes) : CodesStore :=
  st.map (fun p => if p.1 == r then (p.1, codes) else p)

/-- Heap version of `apply_offsets_to_config`: the `meow_colors` mapping
holds references; updates are writes through those references. -/
def apply_offsets_to_config_heap :
    List (String × Nat) → Offsets → CodesStore → CodesStore
  | [], _, st => st
  | (category, r) :: rest, offs, st =>
      if (findOffset offs category).isSome ||
          (findOffset offs "all").isSome then
        let offs' := ensureAll offs
        let pair := (findOffset offs' category).getD
          ((findOffset offs' "all").getD (0, 0))
        let codes := storeRead st r
        let codes' : ColorCodes :=
          { fg := codes.fg.map (fun v => wrap_color_value v pair.1),
            bg := codes.bg.map (fun v => wrap_color_value v pair.2) }
        apply_offsets_to_config_heap rest offs' (storeWrite st r codes')
      else apply_offsets_to_config_heap rest offs st

namespace ColorCatThemes

/-- Heap version of `offset_color`: `config.copy()` yields a fresh
top-level dict with the same category-to-reference entries (the same
association list value), and the writes land in the shared store. -/
def offset_color_heap (offset_args : String) (cfg : List (String × Nat))
    (st : CodesStore) : List (String × Nat) × CodesStore :=
  (cfg, apply_offsets_to_config_heap cfg (parse_offset_args offset_args) st)

end ColorCatThemes

/-- The caller's view of its document: its own `meow_colors` mapping read
against the current store. -/
def readConfig (cfg : List (String × Nat)) (st : CodesStore) :
    List (String × ColorCodes) :=
  cfg.map (fun p => (p.1, storeRead st p.2))

/-- C2 (divergence): applying `offset_color` with offset spec
`"comma 5,0"` to a document whose `comma` entry has foreground index 250
yields foreground index `(250 + 5) % 255 = 0`, not the claimed
`(250 + 5) mod 256 = 255`: `wrap_color_value` reduces modulo its
`max_value = 255` parameter, so index 255 is never reachable. -/
theorem offset_color_comma_5_0 :
    ColorCatThemes.offset_color "comma 5,0" ⟨[("comma", ⟨some 250, some 0⟩)]⟩
      = ⟨[("comma", ⟨some 0, some 0⟩)]⟩ := by
  simp +decide [ColorCatThemes.offset_color, apply_offsets_to_config,
    parse_offset_args, wipScan, wipStep, isWordChar, isSpaceChar, optGroup,
    digitsToInt, setOffsetFg, setOffsetBg, findOffset, ensureAll,
    wrap_color_value]

/-- C3 (divergence): applying `offset_color` with offset spec
`"all 1,0"` increases foregrounds modulo 255, not 256 (`comma`'s 254
becomes 0 instead of the claimed 255), and changes a background of 255
to 0 instead of leaving backgrounds unchanged ((255 + 0) % 255 = 0). -/
theorem offset_color_all_1_0 :
    ColorCatThemes.offset_color "all 1,0"
        ⟨[("comma", ⟨some 254, some 10⟩), ("colon", ⟨some 3, some 255⟩)]⟩
      = ⟨[("comma", ⟨some 0, some 10⟩), ("colon", ⟨some 4, some 0⟩)]⟩ := by
  simp +decide [ColorCatThemes.offset_color, apply_offsets_to_config,
    parse_offset_args, wipScan, wipStep, isWordChar, isSpaceChar, optGroup,
    digitsToInt, setOffsetFg, setOffsetBg, findOffset, ensureAll,
    wrap_color_value]

/-- C4 (divergence): after `offset_color "comma 5,0"` on a document whose
`comma` codes live at reference 0 with foreground 250, the store holds
the updated codes, so the caller's own document reads back changed
(foreground 0) — the call mutates the document the caller passed in,
because only the top-level dict is copied. -/
theorem offset_color_mutates_caller :
    (ColorCatThemes.offset_color_heap "comma 5,0" [("comma", 0)]
        [(0, ⟨some 250, some 0⟩)]).2 = [(0, ⟨some 0, some 0⟩)] ∧
    readConfig [("comma", 0)] [(0, ⟨some 0, some 0⟩)]
      ≠ readConfig [("comma", 0)] [(0, ⟨some 250, some 0⟩)] := by
  constructor
  · simp +decide [ColorCatThemes.offset_color_heap,
      apply_offsets_to_config_heap, parse_offset_args, wipScan, wipStep,
      isWordChar, isSpaceChar, optGroup, digitsToInt, setOffsetFg,
      setOffsetBg, findOffset, ensureAll, wrap_color_value, storeRead,
      storeWrite]
  · simp [readConfig, storeRead]

/-! ## Modifier

`ColorCatThemes.apply_modifications` (src/colorcat-config-wip.py:113-137).
The source splits `modifications_str` with `shlex.split` and then mutates
`self.colorcat_current_theme_config` in place; the embedding takes the
resulting token list and passes the document explicitly, returning the
document after the batch (`.error` models an uncaught Python exception,
which aborts the whole batch).  Print diagnostics are dropped. -/

/-- Python `str.split(sep)` for a single-character separator: always at
least one piece; empty pieces between adjacent separators. -/
def splitOnChar (sep : Char) : List Char → List (List Char)
  | [] => [[]]
  | c :: cs =>
      if c == sep then [] :: splitOnChar sep cs
      else match splitOnChar sep cs with
           | h :: t => (c :: h) :: t
           | [] => [[c]]

/-- Python `s.split(sep)` on strings. -/
def pySplit (s : String) (sep : Char) : List String :=
  (splitOnChar sep s.data).map (fun l => String.mk l)

def startsWithL : List Char → List Char → Bool
  | [], _ => true
  | _ :: _, [] => false
  | n :: ns, h :: hs => n == h && startsWithL ns hs

def containsSub (needle : List Char) : List Char → Bool
  | [] => startsWithL needle []
  | h :: t => startsWithL needle (h :: t) || containsSub needle t

/-- Python `needle in hay` on strings: substring containment. -/
def strContains (hay needle : String) : Bool :=
  containsSub needle.data hay.data

/-- Python `dict_ref[k] = v` on a dict: replace the value of an existing
key in place, else append the new key at the end. -/
def vmapSet (m : List (String × Value)) (k : String) (v : Value) :
    List (String × Value) :=
  if (m.find? (fun p => p.1 == k)).isSome then
    m.map (fun p => if p.1 == k then (p.1, v) else p)
  else m ++ [(k, v)]

/-- The leaf step of `apply_modifications`: `if path_parts[-1] in
dict_ref:` followed by the `isinstance` dispatch — a string leaf is
replaced wholesale, a list leaf by the comma-split of the new value, any
other present leaf prints `Unsupported modification` and is skipped, an
absent leaf prints a `not found` notice and is skipped.  On a non-dict
`dict_ref`, Python's `in` tests substring (str) or element (list)
membership, and a hit then raises `TypeError` when `dict_ref[last]` is
evaluated; `in` on any other value raises `TypeError` itself. -/
def leafAssign (v : Value) (last value : String) : Except String Value :=
  match v with
  | .vmap m =>
      let cur : Option Value :=
        (m.find? (fun p => p.1 == last)).map (fun p => p.2)
      match cur with
      | some (.vstr _) => .ok (.vmap (vmapSet m last (.vstr value)))
      | some (.vlist _) =>
          .ok (.vmap (vmapSet m last (.vlist ((pySplit value ',').map .vstr))))
      | some _ => .ok (.vmap m)
      | none => .ok (.vmap m)
  | .vstr s =>
      if strContains s last then .error "TypeError" else .ok (.vstr s)
  | .vlist xs =>
      if xs.any (fun x => match x with | .vstr t => t == last | _ => false)
      then .error "TypeError" else .ok (.vlist xs)
  | _ => .error "TypeError"

/-- The walk of `apply_modifications` over `path_parts[:-1]`: follow each
intermediate segment while present.  When a segment is absent the loop
`break`s — and the source then still falls through to the leaf check
against the dict where the walk stopped (there is no for-else), which is
why `leafAssign` is applied there too. -/
def modWalk (v : Value) (stem : List String) (last value : String) :
    Except String Value :=
  match stem with
  | [] => leafAssign v last value
  | part :: rest =>
      match v with
      | .vmap m =>
          match (m.find? (fun p => p.1 == part)).map (fun p => p.2) with
          | some child =>
              match modWalk child rest last value with
              | .ok child2 => .ok (.vmap (vmapSet m part child2))
              | .error e => .error e
          | none => leafAssign (.vmap m) last value
      | .vstr s =>
          if strContains s part then .error "TypeError"
          else leafAssign (.vstr s) last value
      | .vlist xs =>
          if xs.any (fun x => match x with | .vstr t => t == part | _ => false)
          then .error "TypeError" else leafAssign (.vlist xs) last value
      | _ => .error "TypeError"

/-- One modification `key=value`: `modification.split('=')` must unpack
into exactly two parts (otherwise `ValueError`), the key is split on
dots, and the walk runs over all but the last segment.  (`key.split('.')`
is never empty, so the `getD` default is unreachable.) -/
def applyOneMod (doc : Value) (modif : String) : Except String Value :=
  match pySplit modif '=' with
  | [key, value] =>
      let pp := pySplit key '.'
      modWalk doc pp.dropLast ((pp.getLast?).getD "") value
  | _ => .error "ValueError"

/-- Embedding of `apply_modifications` over the shlex-split token list: edits are
applied left to right; an uncaught exception aborts the rest of the
batch. -/
def apply_modifications (doc : Value) (modifications : List String) :
    Except String Value :=
  modifications.foldlM applyOneMod doc

/-- C5 (divergence): the edit `missing.a=new` has the absent intermediate
segment `missing`, and the source prints `Modification skipped.` — but
then falls through and applies the final segment `a` at the level where
the walk stopped, so the document `{a: old}` CHANGES to `{a: new}`.
Second conjunct: an edit whose absent-intermediate fallthrough misses
(`nope.x=v`) indeed leaves the document unchanged and the next edit of
the batch is still processed without an exception. -/
theorem apply_modifications_missing_path :
    apply_modifications (.vmap [("a", .vstr "old")]) ["missing.a=new"]
      = .ok (.vmap [("a", .vstr "new")]) ∧
    apply_modifications (.vmap [("a", .vstr "old")]) ["nope.x=v", "a=new2"]
      = .ok (.vmap [("a", .vstr "new2")]) :=
  ⟨rfl, rfl⟩

/-! ## CLI input phase (src/colorcat.py `main`)

`main` (src/colorcat.py:470-544), up to the acquisition of the input
text: after the help check, `if not sys.stdin.isatty() and
args.filename:` prints an error to standard error and calls
`sys.exit(1)`; the raised `SystemExit` is not an `Exception`, so the
`except Exception` handler does not catch it and the process terminates
with code 1 before any input source is opened or read (the module-level
`sys.exit(0)` after `main()` is never reached).  Otherwise a truthy
`args.filename` is opened and read, else standard input is read.
(Python truthiness: `None` and the empty string are falsy.) -/

/-- Python truthiness of the optional `filename` argument. -/
def truthy : Option String → Bool
  | some s => s != ""
  | none => false

/-- Outcome of the input phase: the exit code if the process exits here,
which file (if any) is opened and read, whether stdin is read, and the
line printed to standard error. -/
structure InputPhaseResult where
  exitCode : Option Nat
  readsFile : Option String
  readsStdin : Bool
  stderrLine : Option String
deriving DecidableEq

/-- The input phase of `main` (src/colorcat.py:485-501). -/
def colorcat_input_phase (helpRequested stdinIsatty : Bool)
    (filename : Option String) : InputPhaseResult :=
  if helpRequested then ⟨some 0, none, false, none⟩
  else if !stdinIsatty && truthy filename then
    ⟨some 1, none, false,
     some "Error: Cannot provide both a filename and pipe input to colorcat."⟩
  else if truthy filename then ⟨none, filename, false, none⟩
  else ⟨none, none, true, none⟩

/-- C9: with piped standard input (not a terminal) and a (nonempty)
filename argument, and no help request, the program prints the error to
standard error and exits with code 1 without opening the file or reading
standard input. -/
theorem pipe_and_filename_conflict (f : String) (hf : f ≠ "") :
    colorcat_input_phase false false (some f) =
      ⟨some 1, none, false,
       some "Error: Cannot provide both a filename and pipe input to colorcat."⟩ := by
  simp [colorcat_input_phase, truthy, hf]

/-- Witness for C9 at a concrete filename. -/
theorem pipe_and_filename_conflict_witness :
    colorcat_input_phase false false (some "file.py") =
      ⟨some 1, none, false,
       some "Error: Cannot provide both a filename and pipe input to colorcat."⟩ :=
  pipe_and_filename_conflict "file.py" (by decide)

/-! ## Line-range parsing (src/colorcat.py `parse_line_ranges`) -/

/-- Python `int` on a bare decimal numeral: defined on nonempty all-digit
strings, `none` otherwise (an exception; Python's `int` additionally
strips whitespace and accepts signs and underscores, which the
line-range syntax of single numbers and `a-b` parts does not use). -/
def digitNat? (s : String) : Option Nat :=
  if s.data ≠ [] ∧ s.data.all Char.isDigit then
    some (s.data.foldl (fun a c => a * 10 + (c.toNat - 48)) 0)
  else none

/-- Python `start, end = part.split('-')` followed by
`range(int(start), int(end) + 1)`: exactly two bounds are required
(`ValueError` otherwise). -/
def parseBounds : List String → Option (List Nat)
  | [s, e] =>
      match digitNat? s, digitNat? e with
      | some a, some b => some (List.range' a (b + 1 - a))
      | _, _ => none
  | _ => none

/-- One comma-separated part of `parse_line_ranges`
(src/colorcat.py:342-352): a part containing `-` contributes its bounds
range; any other part contributes its single number. -/
def parsePart (part : String) : Option (List Nat) :=
  if part.data.contains '-' then parseBounds (pySplit part '-')
  else (digitNat? part).map (fun n => [n])

/-- Embedding of `parse_line_ranges` (src/colorcat.py:342-352): the empty string is
falsy and yields the empty set; otherwise the comma-separated parts
each contribute their numbers (the Python `set` is modelled by a list
up to membership; `none` models an exception). -/
def parse_line_ranges (s : String) : Option (List Nat) :=
  if s = "" then some [] else
    (pySplit s ',').foldlM
      (fun acc part => (parsePart part).map (fun xs => acc ++ xs)) []

/-- The numbers denoted by the two bounds of an `a-b` part, from the
claim's words: every integer from `a` through `b` inclusive. -/
def denotesBounds : List String → Nat → Prop
  | [s, e], n => ∃ a b, digitNat? s = some a ∧ digitNat? e = some b ∧
      a ≤ n ∧ n ≤ b
  | _, _ => False

/-- The set of line numbers a part denotes, from the claim's words: a
part `a-b` denotes every integer from `a` through `b` inclusive, and a
single-number part denotes that number. -/
def partDenotes (part : String) (n : Nat) : Prop :=
  if part.data.contains '-' then denotesBounds (pySplit part '-') n
  else digitNat? part = some n

theorem mem_range_inclusive (a b n : Nat) :
    n ∈ List.range' a (b + 1 - a) ↔ a ≤ n ∧ n ≤ b := by
  rw [List.mem_range']
  constructor
  · rintro ⟨i, hi, rfl⟩
    omega
  · intro h
    exact ⟨n - a, by omega, by omega⟩

theorem parsePart_mem (part : String) (xs : List Nat) (n : Nat)
    (h : parsePart part = some xs) : n ∈ xs ↔ partDenotes part n := by
  unfold parsePart at h
  unfold partDenotes
  by_cases hc : part.data.contains '-'
  · rw [if_pos hc] at h ⊢
    rcases hsp : pySplit part '-' with _ | ⟨a, rest⟩ <;> rw [hsp] at h
    · simp [parseBounds] at h
    · rcases rest with _ | ⟨b, rest2⟩
      · simp [parseBounds] at h
      · rcases rest2 with _ | ⟨c, rest3⟩
        · simp only [parseBounds] at h
          simp only [denotesBounds]
          rcases hda : digitNat? a with _ | x <;> rw [hda] at h
          · simp at h
          · rcases hdb : digitNat? b with _ | y <;> rw [hdb] at h
            · simp at h
            · simp only [Option.some.injEq] at h
              subst h
              rw [mem_range_inclusive]
              constructor
              · rintro ⟨hx, hy⟩
                exact ⟨x, y, rfl, rfl, hx, hy⟩
              · rintro ⟨a', b', ha', hb', h1, h2⟩
                simp only [Option.some.injEq] at ha' hb'
                omega
        · simp [parseBounds] at h
  · rw [if_neg hc] at h ⊢
    rcases hd : digitNat? part with _ | k <;> rw [hd] at h
    · simp at h
    · simp only [Option.map_some', Option.some.injEq] at h
      subst h
      simp [eq_comm]

theorem foldParts_mem (n : Nat) (ps : List String) :
    ∀ (acc l : List Nat),
      ps.foldlM (fun acc part => (parsePart part).map (fun xs => acc ++ xs))
          acc = some l →
      (n ∈ l ↔ n ∈ acc ∨ ∃ p ∈ ps, partDenotes p n) := by
  induction ps with
  | nil =>
      intro acc l h
      simp only [List.foldlM_nil] at h
      cases h
      simp
  | cons p ps ih =>
      intro acc l h
      simp only [List.foldlM_cons] at h
      rcases hp : parsePart p with _ | xs <;> rw [hp] at h
      · simp at h
      · simp only [Option.map_some'] at h
        have hbind : ps.foldlM
            (fun acc part => (parsePart part).map (fun xs => acc ++ xs))
            (acc ++ xs) = some l := h
        rw [ih (acc ++ xs) l hbind]
        rw [List.mem_append]
        have := parsePart_mem p xs n hp
        simp only [List.mem_cons]
        constructor
        · rintro ((ha | hx) | ⟨q, hq, hd⟩)
          · exact Or.inl ha
          · exact Or.inr ⟨p, Or.inl rfl, this.mp hx⟩
          · exact Or.inr ⟨q, Or.inr hq, hd⟩
        · rintro (ha | ⟨q, (rfl | hq), hd⟩)
          · exact Or.inl (Or.inl ha)
          · exact Or.inl (Or.inr (this.mpr hd))
          · exact Or.inr ⟨q, hq, hd⟩

/-- C10: `parse_line_ranges` maps the empty string to the empty set, and
on any spec it parses without error it returns exactly the union of the
line numbers denoted by the comma-separated parts: every `a-b` part
contributes the integers from `a` through `b` inclusive and every
single-number part contributes its number. -/
theorem parse_line_ranges_spec :
    parse_line_ranges "" = some [] ∧
    ∀ (s : String) (l : List Nat) (n : Nat),
      parse_line_ranges s = some l →
      (n ∈ l ↔ ∃ p ∈ pySplit s ',', partDenotes p n) := by
  constructor
  · rfl
  · intro s l n h
    unfold parse_line_ranges at h
    by_cases hs : s = ""
    · rw [if_pos hs] at h
      cases h
      subst hs
      simp [pySplit, splitOnChar, partDenotes, digitNat?]
    · rw [if_neg hs] at h
      simpa using foldParts_mem n (pySplit s ',') [] l h

/-- Witness for C10 on the spec `1-3,7`. -/
theorem parse_line_ranges_spec_witness :
    2 ∈ [1, 2, 3, 7] ↔ ∃ p ∈ pySplit "1-3,7" ',', partDenotes p 2 :=
  parse_line_ranges_spec.2 "1-3,7" [1, 2, 3, 7] 2 rfl

end Colorcat
